import Mathlib

/-!
Shallow embedding of the vecinity-back-end repository (Node/Express + Sequelize
over MySQL) together with proofs about its report lifecycle, authorization,
category, search and media components.

Conventions used throughout the embedding:
* machine integers and database ids are `Nat` (`0` plays the role of the JS
  falsy values `undefined`/`null`/`0` where a truthiness test occurs);
* `DECIMAL` columns (latitude/longitude) are exact decimals, embedded as `ℚ`;
* timestamps (`new Date()`, `Date.now()`) are milliseconds since the epoch,
  embedded as `Nat` and passed explicitly as a `now` argument;
* JSON document columns are embedded as structures/lists mirroring the shapes
  the code reads and writes;
* fallible operations (`save` with validators, thrown errors) return `Except`.
-/

namespace Vecinity

/-- JS `a || d` for an optional string `a`: both `undefined` and the empty
string are falsy, so either one selects the default `d`. -/
def jsOrString (o : Option String) (d : String) : String :=
  match o with
  | some s => if s = "" then d else s
  | none => d

/-- One element of the `multimedia` JSON array of a report
(src/models/Report.js `multimedia` validator: each element carries a `tipo`
in `imagen`/`video` and a `url`). -/
structure MediaItem where
  tipo : String
  url : String
  deriving Repr, DecidableEq

/-- One entry of the `historial_estatus` JSON array.  The entry written by the
`beforeCreate` hook has no `multimedia` key (`none`); entries written by
`cambiarEstatus` carry `some` list. -/
structure HistEntry where
  estatus : String
  comentario : String
  multimedia : Option (List MediaItem)
  cambiado_por : Nat
  fecha_cambio : Nat
  deriving Repr, DecidableEq

/-- One entry of the `comentarios` JSON array, as written by
`Report.prototype.agregarComentario` in src/models/Report.js. -/
structure ComentarioEntry where
  usuario_id : Nat
  contenido : String
  multimedia : List MediaItem
  created_at : Nat
  deriving Repr, DecidableEq

/-- One entry of the `votos.positivos` / `votos.negativos` arrays, as written
by `Report.prototype.votar`. -/
structure VoteEntry where
  usuario_id : Nat
  fecha : Nat
  deriving Repr, DecidableEq

/-- The `votos` JSON document of a report: two arrays of vote entries. -/
structure Votos where
  positivos : List VoteEntry
  negativos : List VoteEntry
  deriving Repr, DecidableEq

/-- The default value of the `votos` column (src/models/Report.js). -/
def Votos.default : Votos := ⟨[], []⟩

/-- The `Report` model of src/models/Report.js: column set, with the JSON
columns given their structural shapes and defaults as declared in the model
(`estatus` defaults to `nuevo`, `prioridad` to `media`, `is_publico` to
`true`, the JSON documents to empty). -/
structure Report where
  id : Nat
  titulo : String
  descripcion : String
  direccion : String
  latitud : ℚ
  longitud : ℚ
  categoria_id : Nat
  estatus : String := "nuevo"
  prioridad : String := "media"
  folio : Option String := none
  multimedia : List MediaItem := []
  usuario_id : Nat
  asignado_a : Option Nat := none
  historial_estatus : List HistEntry := []
  comentarios : List ComentarioEntry := []
  votos : Votos := Votos.default
  etiquetas : List String := []
  is_publico : Bool := true
  is_moderado : Bool := false
  visitas : Nat := 0
  ultima_visita : Nat := 0
  created_at : Nat := 0
  deriving Repr, DecidableEq

/-- The status enumeration of the `estatus` column. -/
def validEstatus (s : String) : Bool :=
  ["nuevo", "en_proceso", "resuelto", "cerrado"].contains s

/-- The priority enumeration of the `prioridad` column. -/
def validPrioridad (s : String) : Bool :=
  ["baja", "media", "alta", "urgente"].contains s

/-- The `isValidMultimedia` validator of src/models/Report.js: every element
has a valid `tipo` and a non-empty `url`. -/
def isValidMultimedia (l : List MediaItem) : Bool :=
  l.all (fun m => ["imagen", "video"].contains m.tipo && m.url != "")

/-- The `isValidHistorial` validator of src/models/Report.js: every entry has
a valid `estatus` and a truthy `cambiado_por`. -/
def isValidHistorial (l : List HistEntry) : Bool :=
  l.all (fun h => validEstatus h.estatus && h.cambiado_por != 0)

/-- The `isValidComentarios` validator of src/models/Report.js: every entry
has a truthy `usuario_id` and a `contenido` of length 1 to 500. -/
def isValidComentarios (l : List ComentarioEntry) : Bool :=
  l.all (fun c => c.usuario_id != 0 && 1 ≤ c.contenido.length && c.contenido.length ≤ 500)

/-- The scalar-column validators of the `Report` model (`len`, `min`/`max`
range checks) as declared in src/models/Report.js. -/
def validReportColumns (r : Report) : Bool :=
  5 ≤ r.titulo.length && r.titulo.length ≤ 100 &&
  10 ≤ r.descripcion.length && r.descripcion.length ≤ 1000 &&
  5 ≤ r.direccion.length && r.direccion.length ≤ 200 &&
  -90 ≤ r.latitud && r.latitud ≤ 90 &&
  -180 ≤ r.longitud && r.longitud ≤ 180 &&
  validEstatus r.estatus && validPrioridad r.prioridad &&
  (match r.folio with
   | some f => f.length ≤ 50
   | none => true)

/-- `report.save()`: Sequelize validates the instance against the model
validators and either persists it (`.ok`) or rejects it with a validation
error (`.error`). -/
def saveReport (r : Report) : Except String Report :=
  if validReportColumns r = false then .error "validation error" else
  if isValidMultimedia r.multimedia = false then .error "La multimedia debe ser un array" else
  if isValidHistorial r.historial_estatus = false then .error "El historial debe ser un array" else
  if isValidComentarios r.comentarios = false then .error "Los comentarios deben ser un array" else
  .ok r

/-! ### Report creation (C7)

src/models/Report.js, `beforeCreate` hook: seeds `historial_estatus` with a
single entry recording the initial status, the fixed comment `Reporte creado`
and the owner as the actor. -/

/-- The `beforeCreate` hook of the `Report` model. -/
def beforeCreateHook (now : Nat) (r : Report) : Report :=
  { r with historial_estatus :=
      [{ estatus := r.estatus
         comentario := "Reporte creado"
         multimedia := none
         cambiado_por := r.usuario_id
         fecha_cambio := now }] }

/-- `POST /api/reports` (src/routes/reports.js): after validation the route
builds the new row from the request body — `prioridad` defaults to `media`
via `||`, `is_publico` is `req.body.is_publico !== false`, the owner is the
authenticated user — and `Report.create` runs the `beforeCreate` hook. -/
def routeCreateReport (titulo descripcion direccion : String) (lat lng : ℚ)
    (categoriaId : Nat) (prioridad : Option String) (folio : Option String)
    (isPublico : Option Bool) (multimedia : List MediaItem)
    (ownerId : Nat) (now : Nat) : Report :=
  beforeCreateHook now
    { id := 0
      titulo := titulo
      descripcion := descripcion
      direccion := direccion
      latitud := lat
      longitud := lng
      categoria_id := categoriaId
      prioridad := jsOrString prioridad "media"
      folio := folio
      multimedia := multimedia
      is_publico := decide (isPublico ≠ some false)
      usuario_id := ownerId
      created_at := now }

/-! ### Authorization (C1)

src/middleware/auth.js.  The Sequelize `User` model (src/models/User.js)
declares a single `role` ENUM attribute and no `roles` attribute, so on every
user instance loaded by `protect`/`optionalAuth` the property access
`req.user.roles` evaluates to `undefined`.  The embedding therefore carries
`roles` as an `Option`, and instances coming from the database always have
`roles = none` (constructor `JsUser.fromDb`). -/

/-- The `req.user` object: a loaded `User` model instance as the middleware
sees it. -/
structure JsUser where
  id : Nat
  role : String
  roles : Option (List String) := none
  deriving Repr, DecidableEq

/-- A user row loaded from the database: the model defines no `roles`
attribute, so the property is `undefined` (`none`). -/
def JsUser.fromDb (id : Nat) (role : String) : JsUser :=
  { id := id, role := role, roles := none }

/-- The `authorize(...roles)` middleware check (src/middleware/auth.js lines
60-82): `userRoles` is `req.user.roles || ['usuario']`, and access is granted
iff some required role is contained in `userRoles`. -/
def authorize (requiredRoles : List String) (u : JsUser) : Bool :=
  let userRoles := u.roles.getD ["usuario"]
  requiredRoles.any (fun role => userRoles.contains role)

/-- The admin role set named by the spec and used by the admin routes. -/
def adminRoleSet : List String := ["admin_operativo", "admin_general", "superadmin"]

/-- The ownership check of `PUT /api/reports/:id` (src/routes/reports.js
lines 438-444): the request is allowed iff the caller owns the report or
`req.user.role` is literally `admin` or `superadmin`. -/
def putReportAllowed (u : JsUser) (r : Report) : Bool :=
  r.usuario_id == u.id || (u.role == "admin" || u.role == "superadmin")

/-- The ownership check of `PUT /api/reports/:id/status` (src/routes/reports.js
line 536): the full admin role set is consulted there. -/
def statusRouteAllowed (u : JsUser) (r : Report) : Bool :=
  r.usuario_id == u.id || adminRoleSet.contains u.role

/-! ### Category subcategories (C8)

src/models/Category.js. -/

/-- One element of the `subcategorias` JSON array of a category. -/
structure Subcategoria where
  nombre : String
  descripcion : String := ""
  icono : String := "default-sub-icon"
  deriving Repr, DecidableEq

/-- The `Category` model columns relevant to the subcategory operations. -/
structure Category where
  id : Nat
  nombre : String
  subcategorias : List Subcategoria := []
  is_active : Bool := true
  deriving Repr, DecidableEq

/-- `Category.prototype.hasSubcategory` (src/models/Category.js lines 80-83):
`some(sub => sub.nombre === subcategoryName)` — exact, case-sensitive string
equality. -/
def hasSubcategory (c : Category) (subcategoryName : String) : Bool :=
  c.subcategorias.any (fun sub => sub.nombre == subcategoryName)

/-- `Category.prototype.addSubcategory` (src/models/Category.js lines 85-92):
push and save when `hasSubcategory` is false, otherwise throw
`La subcategoría ya existe`. -/
def addSubcategory (c : Category) (sub : Subcategoria) : Except String Category :=
  if hasSubcategory c sub.nombre = false then
    .ok { c with subcategorias := c.subcategorias ++ [sub] }
  else
    .error "La subcategoría ya existe"

/-! ### Report lifecycle instance methods

src/models/Report.js, lines 404-453. -/

/-- `Report.prototype.cambiarEstatus(nuevoEstatus, comentario, multimedia,
usuarioId)`: when the status actually changes, set it, append one history
entry (comment defaulting via `||`, multimedia via `|| []`) and save;
otherwise resolve with the report untouched and no save. -/
def cambiarEstatus (nuevoEstatus : String) (comentario : Option String)
    (multimedia : Option (List MediaItem)) (usuarioId : Nat) (now : Nat)
    (r : Report) : Except String Report :=
  if r.estatus ≠ nuevoEstatus then
    saveReport
      { r with
        estatus := nuevoEstatus
        historial_estatus := r.historial_estatus ++
          [{ estatus := nuevoEstatus
             comentario := jsOrString comentario ("Estatus cambiado a " ++ nuevoEstatus)
             multimedia := some (multimedia.getD [])
             cambiado_por := usuarioId
             fecha_cambio := now }] }
  else
    .ok r

/-- `Report.prototype.agregarComentario(usuarioId, contenido, multimedia)`:
append one comment entry and save. -/
def agregarComentario (usuarioId : Nat) (contenido : String)
    (multimedia : Option (List MediaItem)) (now : Nat)
    (r : Report) : Except String Report :=
  saveReport
    { r with comentarios := r.comentarios ++
        [{ usuario_id := usuarioId
           contenido := contenido
           multimedia := multimedia.getD []
           created_at := now }] }

/-- Membership of a user in the `positivos` array. -/
def enPositivos (usuarioId : Nat) (v : Votos) : Bool :=
  v.positivos.any (fun e => e.usuario_id == usuarioId)

/-- Membership of a user in the `negativos` array. -/
def enNegativos (usuarioId : Nat) (v : Votos) : Bool :=
  v.negativos.any (fun e => e.usuario_id == usuarioId)

/-- The votes-document transformation performed by `Report.prototype.votar`:
if the user currently appears in either array, filter them out of both;
then push a fresh entry onto the array selected by `tipo` (`positivo` /
`negativo`; any other value adds nothing). -/
def votarVotos (usuarioId : Nat) (tipo : String) (now : Nat) (v : Votos) : Votos :=
  let found := enPositivos usuarioId v || enNegativos usuarioId v
  let v1 : Votos :=
    if found then
      ⟨v.positivos.filter (fun e => e.usuario_id != usuarioId),
       v.negativos.filter (fun e => e.usuario_id != usuarioId)⟩
    else v
  if tipo = "positivo" then
    ⟨v1.positivos ++ [{ usuario_id := usuarioId, fecha := now }], v1.negativos⟩
  else if tipo = "negativo" then
    ⟨v1.positivos, v1.negativos ++ [{ usuario_id := usuarioId, fecha := now }]⟩
  else v1

/-- `Report.prototype.votar`: update the votes document and save. -/
def votar (usuarioId : Nat) (tipo : String) (now : Nat) (r : Report) :
    Except String Report :=
  saveReport { r with votos := votarVotos usuarioId tipo now r.votos }

/-- A vote request: acting user, requested `tipo`, timestamp. -/
structure VoteOp where
  usuarioId : Nat
  tipo : String
  now : Nat

/-- Apply a sequence of `votar` vote-document updates in order. -/
def applyVotes (ops : List VoteOp) (v : Votos) : Votos :=
  ops.foldl (fun acc op => votarVotos op.usuarioId op.tipo op.now acc) v

/-! ### Password reset (C2)

src/models/User.js `getResetPasswordToken` and the route
`PUT /api/auth/reset-password/:token` (src/routes/auth.js).  The sha256 hash
is an external crypto primitive; the embedding abstracts it as a function
argument `h`. -/

/-- The authentication-relevant columns of the `User` model. -/
structure UserAuth where
  id : Nat
  email : String
  password : String
  reset_password_token : Option String := none
  reset_password_expire : Option Nat := none
  deriving Repr, DecidableEq

/-- `User.prototype.getResetPasswordToken`: store the sha256 hash `h tok` of
the freshly generated token and a 10-minute expiry, return the unhashed
token.  `h` abstracts `crypto.createHash(sha256)`, `tok` the random token. -/
def getResetPasswordToken (h : String → String) (tok : String) (now : Nat)
    (u : UserAuth) : String × UserAuth :=
  (tok,
   { u with
     reset_password_token := some (h tok)
     reset_password_expire := some (now + 10 * 60 * 1000) })

/-- `PUT /api/auth/reset-password/:token`: after the password length check the
route looks the user up by `reset_password_token = presented` (the raw path
parameter, not hashed) and `reset_password_expire > now`; on a match it sets
the new password and clears the token columns, otherwise it answers
`Token inválido o expirado`. -/
def resetPasswordRoute (presented newPassword : String) (now : Nat)
    (u : UserAuth) : Except String UserAuth :=
  if newPassword.length < 6 then .error "validation error" else
  if u.reset_password_token == some presented && now < u.reset_password_expire.getD 0 then
    .ok { u with
          password := newPassword
          reset_password_token := none
          reset_password_expire := none }
  else
    .error "Token inválido o expirado"

/-! ### Proximity search (C5) and report listing (C10)

`GET /api/reports` in src/routes/reports.js.  Coordinates are DECIMAL
columns, embedded as `ℚ`; the SQL great-circle expression
`6371 * acos(cos(radians(lat)) * cos(radians(latitud)) *
cos(radians(longitud) - radians(lng)) + sin(radians(lat)) *
sin(radians(latitud)))` is embedded over `ℝ`. -/

/-- SQL `radians`: degrees to radians. -/
noncomputable def radians (q : ℚ) : ℝ := (q : ℝ) * Real.pi / 180

/-- The `distancia` attribute computed by the query (the SQL literal at
src/routes/reports.js lines 161-169, also used as the ORDER BY key). -/
noncomputable def distancia (latQ lngQ : ℚ) (r : Report) : ℝ :=
  6371 * Real.arccos
    (Real.cos (radians latQ) * Real.cos (radians r.latitud) *
       Real.cos (radians r.longitud - radians lngQ) +
     Real.sin (radians latQ) * Real.sin (radians r.latitud))

/-- The bounding-box pre-filter (src/routes/reports.js lines 111-116):
`latitud BETWEEN lat - radio*0.01 AND lat + radio*0.01` and likewise for
`longitud`. -/
def geoBox (latQ lngQ radio : ℚ) (r : Report) : Bool :=
  decide (latQ - radio * 0.01 ≤ r.latitud) && decide (r.latitud ≤ latQ + radio * 0.01) &&
  decide (lngQ - radio * 0.01 ≤ r.longitud) && decide (r.longitud ≤ lngQ + radio * 0.01)

/-- The WHERE clause of the geo-filtered list query: `is_publico: true` plus
the bounding box.  No condition on the true great-circle distance is ever
added. -/
def geoWhere (latQ lngQ radio : ℚ) (r : Report) : Bool :=
  r.is_publico && geoBox latQ lngQ radio r

/-- The row set produced by the geo-filtered query. -/
def geoFilter (db : List Report) (latQ lngQ radio : ℚ) : List Report :=
  db.filter (geoWhere latQ lngQ radio)

/-- The geo-filtered list result: rows paired with their `distancia`
attribute, ordered by that attribute ascending (the ORDER BY of the query). -/
noncomputable def listReportsGeo (db : List Report) (latQ lngQ radio : ℚ) :
    List (Report × ℝ) :=
  ((geoFilter db latQ lngQ radio).map (fun r => (r, distancia latQ lngQ r))).mergeSort
    (fun p q => decide (p.2 ≤ q.2))

/-- The query parameters of `GET /api/reports` that reach the WHERE clause
and pagination (src/routes/reports.js lines 73-131). -/
structure ListQuery where
  page : Nat := 1
  limit : Nat := 20
  categoria : Option Nat := none
  estatus : Option String := none
  prioridad : Option String := none
  search : Option String := none
  geo : Option (ℚ × ℚ × ℚ) := none

/-- SQL `LIKE CONCAT(percent, s, percent)`: substring containment. -/
def likeContains (hay pat : String) : Bool :=
  decide (pat.toList <:+: hay.toList)

/-- The WHERE clause built by `GET /api/reports`: always `is_publico: true`,
plus the optional category/status/priority equalities, the optional text
search over titulo/descripcion/direccion/folio, and the optional bounding
box.  The clause never mentions the caller. -/
def matchesWhere (q : ListQuery) (r : Report) : Bool :=
  r.is_publico &&
  (match q.categoria with
   | some c => r.categoria_id == c
   | none => true) &&
  (match q.estatus with
   | some e => r.estatus == e
   | none => true) &&
  (match q.prioridad with
   | some p => r.prioridad == p
   | none => true) &&
  (match q.search with
   | some s =>
       likeContains r.titulo s || likeContains r.descripcion s ||
       likeContains r.direccion s ||
       (match r.folio with
        | some f => likeContains f s
        | none => false)
   | none => true) &&
  (match q.geo with
   | some gq => geoBox gq.1 gq.2.1 gq.2.2 r
   | none => true)

/-- The `GET /api/reports` handler after `optionalAuth`: `user` is whatever
`optionalAuth` attached to the request (`none` for anonymous callers).  The
handler filters by `matchesWhere`, orders by distance ascending when a
center point was supplied and by `created_at` descending otherwise, then
applies offset/limit pagination.  The `user` argument is never read. -/
noncomputable def listReportsHandler (db : List Report) (q : ListQuery)
    (user : Option JsUser) : List Report :=
  let filtered := db.filter (matchesWhere q)
  let ordered :=
    match q.geo with
    | some gq =>
        filtered.mergeSort (fun a b => decide (distancia gq.1 gq.2.1 a ≤ distancia gq.1 gq.2.1 b))
    | none =>
        filtered.mergeSort (fun a b => decide (b.created_at ≤ a.created_at))
  (ordered.drop ((q.page - 1) * q.limit)).take q.limit

/-! ### Media ingestion (C9)

The upload middleware (multer + sharp wrapper).  The disk is embedded as the
list of file paths present; sharp invocations are numbered and a failure
set `fails` tells which invocation throws.  On the first throw the middleware
catch block forwards the error (`next(error)`) without deleting anything,
and the server never mounts the `cleanupFiles` middleware, so the error
response leaves the disk exactly as the failure found it. -/

/-- Split a path into stem and extension, mirroring Node `path.extname`
(extension begins at the last dot). -/
def extSplit (s : String) : String × String :=
  let cs := s.toList
  let afterDot := cs.reverse.takeWhile (fun c => c ≠ '.')
  if afterDot.length = cs.length then (s, "")
  else ((cs.take (cs.length - afterDot.length - 1)).asString,
        ('.' :: afterDot.reverse).asString)

/-- The thumbnail path: `file.path.replace(extname, _thumb + extname)`. -/
def thumbOf (p : String) : String :=
  (extSplit p).1 ++ "_thumb" ++ (extSplit p).2

/-- A file already stored by multer: its disk path and MIME type. -/
structure UploadedFile where
  path : String
  mimetype : String
  deriving Repr, DecidableEq

/-- `file.mimetype.startsWith(image/)`. -/
def isImage (f : UploadedFile) : Bool :=
  "image/".toList.isPrefixOf f.mimetype.toList

/-- Write a file: the path becomes present on disk. -/
def fsWrite (p : String) (d : List String) : List String :=
  if d.contains p then d else d ++ [p]

/-- `fs.unlinkSync`: the path is no longer present. -/
def fsRemove (p : String) (d : List String) : List String :=
  d.filter (fun q => q ≠ p)

/-- The loop body of `processImage` (src middleware upload, lines 60-106).
For each image file, in order: sharp writes `path_processed` (numbered
invocation), the original is unlinked, the processed file is renamed onto
the original path, then sharp writes the thumbnail (next numbered
invocation).  Non-image files pass through.  A failing sharp invocation
aborts with the disk as it stands. -/
def processImageGo (fails : Nat → Bool) :
    List UploadedFile → Nat → List String → Except (List String) (List String)
  | [], _, d => .ok d
  | f :: rest, n, d =>
      if isImage f then
        if fails n then .error d else
        let d1 := fsWrite (f.path ++ "_processed") d
        let d2 := fsRemove f.path d1
        let d3 := fsWrite f.path (fsRemove (f.path ++ "_processed") d2)
        if fails (n + 1) then .error d3 else
        let d4 := fsWrite (thumbOf f.path) d3
        processImageGo fails rest (n + 2) d4
      else processImageGo fails rest n d

/-- The disk contents at the moment the error response is produced, when
image processing fails partway through: the `catch` block of `processImage`
only forwards the error, and `cleanupFiles` is exported by the upload
middleware but mounted nowhere in the server, so nothing is deleted.
Returns `none` when processing succeeded. -/
def processImageDiskAfterError (fails : Nat → Bool) (files : List UploadedFile)
    (disk0 : List String) : Option (List String) :=
  match processImageGo fails files 0 disk0 with
  | .error d => some d
  | .ok _ => none

/-! ### Concrete fixtures used by the theorems below -/

/-- A report with valid column values, owned by user 9. -/
def sampleReport : Report :=
  { id := 1
    titulo := "Bache en la calle"
    descripcion := "Hay un bache grande en la calle"
    direccion := "Calle Falsa 123"
    latitud := 19
    longitud := -99
    categoria_id := 1
    usuario_id := 9 }

/-- A user row for the password-reset theorems. -/
def sampleUserAuth : UserAuth :=
  { id := 1, email := "vecino@vecinity.com", password := "contrasena-vieja" }

/-- A category holding the seeded subcategory `Coladeras`. -/
def catInfra : Category :=
  { id := 1
    nombre := "infraestructura"
    subcategorias := [{ nombre := "Coladeras", descripcion := "Problemas con coladeras" }] }

/-! ### C1 — role-based and ownership authorization -/

/-- C1: the spec claims that `authorize` grants access to a principal whose
single role is in the admin set when the endpoint lists that role, and that
the `PUT /reports/:id` ownership check grants such a principal the right to
act on a report owned by another user.  Evaluating the code: because the
`User` model has no `roles` attribute, `authorize` falls back to
`['usuario']` for every principal and denies all of them — superadmin
included — on an endpoint requiring the admin roles; and the ownership check
of `PUT /reports/:id` tests the literal role `admin`, so `admin_operativo`
and `admin_general` are denied on a foreign report.  Only the final part of
the claim holds: a `usuario` principal acting on a foreign report is denied. -/
theorem C1_admin_access_evaluation :
    authorize adminRoleSet (JsUser.fromDb 1 "superadmin") = false ∧
    authorize adminRoleSet (JsUser.fromDb 2 "admin_general") = false ∧
    authorize adminRoleSet (JsUser.fromDb 3 "admin_operativo") = false ∧
    putReportAllowed (JsUser.fromDb 4 "admin_general") sampleReport = false ∧
    putReportAllowed (JsUser.fromDb 5 "admin_operativo") sampleReport = false ∧
    putReportAllowed (JsUser.fromDb 6 "usuario") sampleReport = false ∧
    putReportAllowed (JsUser.fromDb 9 "usuario") sampleReport = true := by
  decide

/-! ### C7 — history seeded at creation -/

/-- C7: every successfully created report leaves creation with a status
history of length at least 1 whose first entry records the initial status of
the report and its owner as the acting user. -/
theorem C7_history_seeded_on_create (titulo descripcion direccion : String)
    (lat lng : ℚ) (categoriaId : Nat) (prioridad folio : Option String)
    (isPublico : Option Bool) (multimedia : List MediaItem) (ownerId now : Nat) :
    1 ≤ (routeCreateReport titulo descripcion direccion lat lng categoriaId
          prioridad folio isPublico multimedia ownerId now).historial_estatus.length ∧
    (routeCreateReport titulo descripcion direccion lat lng categoriaId
        prioridad folio isPublico multimedia ownerId now).historial_estatus.head? =
      some
        { estatus := (routeCreateReport titulo descripcion direccion lat lng categoriaId
            prioridad folio isPublico multimedia ownerId now).estatus
          comentario := "Reporte creado"
          multimedia := none
          cambiado_por := (routeCreateReport titulo descripcion direccion lat lng categoriaId
            prioridad folio isPublico multimedia ownerId now).usuario_id
          fecha_cambio := now } := by
  constructor
  · simp [routeCreateReport, beforeCreateHook]
  · simp [routeCreateReport, beforeCreateHook]

/-! ### C9 — media processing error path -/

/-- First uploaded image of the failing request. -/
def imgA : UploadedFile := { path := "uploads/reports/a.jpg", mimetype := "image/jpeg" }

/-- Second uploaded image of the failing request. -/
def imgB : UploadedFile := { path := "uploads/reports/b.jpg", mimetype := "image/jpeg" }

/-- C9: the spec claims that when image processing fails partway through, the
error path removes every file written so far.  Evaluating the code on a
request with two images where the sharp invocation for the second image
throws (invocation number 2): the error response is produced with both
uploaded originals and the already-written thumbnail of the first image
still on disk — the `catch` of `processImage` deletes nothing and
`cleanupFiles` is never mounted. -/
theorem C9_artifacts_remain_after_error :
    processImageDiskAfterError (fun n => n == 2) [imgA, imgB]
        [imgA.path, imgB.path] =
      some ["uploads/reports/b.jpg", "uploads/reports/a.jpg",
            "uploads/reports/a_thumb.jpg"] ∧
    thumbOf imgA.path ∈ ["uploads/reports/b.jpg", "uploads/reports/a.jpg",
      "uploads/reports/a_thumb.jpg"] ∧
    imgA.path ∈ ["uploads/reports/b.jpg", "uploads/reports/a.jpg",
      "uploads/reports/a_thumb.jpg"] ∧
    imgB.path ∈ ["uploads/reports/b.jpg", "uploads/reports/a.jpg",
      "uploads/reports/a_thumb.jpg"] := by
  refine ⟨by decide, by decide, by decide, by decide⟩

/-! ### C8 — subcategory duplicate detection -/

/-- C8 counterexample: the claim says a subcategory name that matches an
existing one under case-insensitive comparison is rejected as a duplicate.
On the seeded category holding `Coladeras`, adding `coladeras` — differing
only in letter case — passes the duplicate check and is appended verbatim. -/
theorem C8_counterexample_case_insensitive_duplicate_added :
    hasSubcategory catInfra "coladeras" = false ∧
    addSubcategory catInfra { nombre := "coladeras" } =
      .ok { catInfra with
            subcategorias := catInfra.subcategorias ++ [{ nombre := "coladeras" }] } := by
  exact ⟨by decide, rfl⟩

/-- C8 amended: duplicate detection compares subcategory names with exact,
case-sensitive string equality and stores names verbatim (no lower-casing on
write): a name exactly equal to an existing subcategory name of the category
is rejected with the duplicate error, and any other name — including one
differing from an existing name only in letter case — is appended. -/
theorem C8_duplicate_check_is_case_sensitive (c : Category) (sub : Subcategoria) :
    ((∃ s ∈ c.subcategorias, s.nombre = sub.nombre) →
      addSubcategory c sub = .error "La subcategoría ya existe") ∧
    ((∀ s ∈ c.subcategorias, s.nombre ≠ sub.nombre) →
      addSubcategory c sub =
        .ok { c with subcategorias := c.subcategorias ++ [sub] }) := by
  constructor
  · rintro ⟨s, hs, he⟩
    have hh : hasSubcategory c sub.nombre = true := by
      simp only [hasSubcategory, List.any_eq_true, beq_iff_eq]
      exact ⟨s, hs, he⟩
    simp [addSubcategory, hh]
  · intro hnone
    have hh : hasSubcategory c sub.nombre = false := by
      simp only [hasSubcategory, List.any_eq_false, beq_iff_eq]
      exact hnone
    simp [addSubcategory, hh]

/-- C8 witness: the amended theorem applied to the seeded category — an exact
duplicate is rejected, and a fresh name is appended. -/
theorem C8_duplicate_check_witness :
    addSubcategory catInfra { nombre := "Coladeras" } = .error "La subcategoría ya existe" ∧
    addSubcategory catInfra { nombre := "Calles" } =
      .ok { catInfra with subcategorias := catInfra.subcategorias ++ [{ nombre := "Calles" }] } := by
  constructor
  · exact (C8_duplicate_check_is_case_sensitive catInfra { nombre := "Coladeras" }).1
      ⟨{ nombre := "Coladeras", descripcion := "Problemas con coladeras" }, by decide, rfl⟩
  · exact (C8_duplicate_check_is_case_sensitive catInfra { nombre := "Calles" }).2
      (by decide)

/-! ### C2 — password reset token flow -/

/-- C2: the spec claims the reset flow stores only the sha256 hash of the
generated token with a 10-minute expiry — which the code does — and that the
reset succeeds exactly when the caller presents the original unhashed token
before the expiry.  Evaluating the code: the route looks the user up by
comparing the presented raw token to the stored hash without hashing it, so
presenting the original token value fails at every time — even inside the
expiry window — with the invalid/expired error, and the user row (its
password included) is unchanged.  `h` abstracts the sha256 hex digest; its
only property used is that the digest differs from the 40-hex-character
token, which holds since digests have 64 characters. -/
theorem C2_reset_with_original_token_always_fails (h : String → String)
    (tok pw : String) (now now2 : Nat) (u : UserAuth)
    (hne : h tok ≠ tok) (hpw : 6 ≤ pw.length) :
    (getResetPasswordToken h tok now u).1 = tok ∧
    (getResetPasswordToken h tok now u).2.reset_password_token = some (h tok) ∧
    (getResetPasswordToken h tok now u).2.reset_password_expire = some (now + 10 * 60 * 1000) ∧
    resetPasswordRoute tok pw now2 (getResetPasswordToken h tok now u).2 =
      .error "Token inválido o expirado" := by
  refine ⟨rfl, rfl, rfl, ?_⟩
  have hlt : ¬pw.length < 6 := by omega
  have hbeq : (some (h tok) == some tok) = false := by
    simp [hne]
  simp [resetPasswordRoute, getResetPasswordToken, hlt, hbeq]

/-- C2 witness: a concrete run of the flow in which the stored value is the
digest of the token and presenting the original token inside the expiry
window is rejected. -/
theorem C2_reset_witness :
    resetPasswordRoute "4f3c2a" "secreta123" 1000
      (getResetPasswordToken (fun s => "sha256-" ++ s) "4f3c2a" 0 sampleUserAuth).2 =
      .error "Token inválido o expirado" :=
  (C2_reset_with_original_token_always_fails (fun s => "sha256-" ++ s)
    "4f3c2a" "secreta123" 0 1000 sampleUserAuth (by decide) (by decide)).2.2.2

/-! ### C3 — vote sets -/

/-- Filtering out the entries of a user removes that user from the array. -/
lemma any_uid_filter_self (l : List VoteEntry) (u : Nat) :
    (l.filter (fun e => e.usuario_id != u)).any (fun e => e.usuario_id == u) = false := by
  induction l with
  | nil => rfl
  | cons e l ih =>
      by_cases he : e.usuario_id = u
      · simp [List.filter_cons, he, ih]
      · simp [List.filter_cons, he, ih]

/-- Filtering out the entries of one user leaves the membership of every
other user unchanged. -/
lemma any_uid_filter_ne (l : List VoteEntry) (u w : Nat) (hw : w ≠ u) :
    (l.filter (fun e => e.usuario_id != u)).any (fun e => e.usuario_id == w) =
      l.any (fun e => e.usuario_id == w) := by
  induction l with
  | nil => rfl
  | cons e l ih =>
      by_cases he : e.usuario_id = u
      · have hne : (u == w) = false := by
          rw [beq_eq_false_iff_ne]
          exact fun hc => hw hc.symm
        simp [List.filter_cons, he, ih, hne]
      · simp [List.filter_cons, he, ih]

/-- After `votar`, the acting user is in `positivos` exactly when the
requested `tipo` is `positivo`, whatever the starting document. -/
lemma enPositivos_votar_self (u : Nat) (t : String) (now : Nat) (v : Votos) :
    enPositivos u (votarVotos u t now v) = (t == "positivo") := by
  cases hf : (enPositivos u v || enNegativos u v) with
  | true =>
      by_cases ht1 : t = "positivo"
      · subst ht1
        simp only [votarVotos, hf]
        simp [enPositivos, List.any_append]
      · by_cases ht2 : t = "negativo"
        · subst ht2
          simp only [votarVotos, hf]
          simp [enPositivos, any_uid_filter_self]
        · simp only [votarVotos, hf]
          rw [if_neg ht1, if_neg ht2]
          have hne : (t == "positivo") = false := beq_eq_false_iff_ne.2 ht1
          simp [enPositivos, any_uid_filter_self, hne]
  | false =>
      have hpos : enPositivos u v = false := by
        cases hp : enPositivos u v
        · rfl
        · rw [hp] at hf
          simp at hf
      by_cases ht1 : t = "positivo"
      · subst ht1
        simp only [votarVotos, hf]
        simp [enPositivos, List.any_append]
      · by_cases ht2 : t = "negativo"
        · subst ht2
          simp only [votarVotos, hf]
          simpa [enPositivos] using hpos
        · simp only [votarVotos, hf]
          rw [if_neg ht1, if_neg ht2]
          have hne : (t == "positivo") = false := beq_eq_false_iff_ne.2 ht1
          simp [hne, hpos]

/-- After `votar`, the acting user is in `negativos` exactly when the
requested `tipo` is `negativo`, whatever the starting document. -/
lemma enNegativos_votar_self (u : Nat) (t : String) (now : Nat) (v : Votos) :
    enNegativos u (votarVotos u t now v) = (t == "negativo") := by
  cases hf : (enPositivos u v || enNegativos u v) with
  | true =>
      by_cases ht1 : t = "positivo"
      · subst ht1
        simp only [votarVotos, hf]
        simp [enNegativos, any_uid_filter_self]
      · by_cases ht2 : t = "negativo"
        · subst ht2
          simp only [votarVotos, hf]
          simp [enNegativos, List.any_append]
        · simp only [votarVotos, hf]
          rw [if_neg ht1, if_neg ht2]
          have hne : (t == "negativo") = false := beq_eq_false_iff_ne.2 ht2
          simp [enNegativos, any_uid_filter_self, hne]
  | false =>
      have hneg : enNegativos u v = false := by
        cases hn : enNegativos u v
        · rfl
        · rw [hn] at hf
          simp at hf
      by_cases ht1 : t = "positivo"
      · subst ht1
        simp only [votarVotos, hf]
        simpa [enNegativos] using hneg
      · by_cases ht2 : t = "negativo"
        · subst ht2
          simp only [votarVotos, hf]
          simp [enNegativos, List.any_append]
        · simp only [votarVotos, hf]
          rw [if_neg ht1, if_neg ht2]
          have hne : (t == "negativo") = false := beq_eq_false_iff_ne.2 ht2
          simp [hne, hneg]

/-- After `votar`, the membership of every user other than the acting one is
unchanged in `positivos`. -/
lemma enPositivos_votar_other (u w : Nat) (t : String) (now : Nat) (v : Votos)
    (hw : w ≠ u) :
    enPositivos w (votarVotos u t now v) = enPositivos w v := by
  have huw : (u == w) = false := by
    rw [beq_eq_false_iff_ne]
    exact fun hc => hw hc.symm
  cases hf : (enPositivos u v || enNegativos u v) with
  | true =>
      by_cases ht1 : t = "positivo"
      · subst ht1
        simp only [votarVotos, hf]
        simp [enPositivos, List.any_append, any_uid_filter_ne _ _ _ hw, huw]
      · by_cases ht2 : t = "negativo"
        · subst ht2
          simp only [votarVotos, hf]
          simp [enPositivos, any_uid_filter_ne _ _ _ hw]
        · simp only [votarVotos, hf]
          rw [if_neg ht1, if_neg ht2]
          simp [enPositivos, any_uid_filter_ne _ _ _ hw]
  | false =>
      by_cases ht1 : t = "positivo"
      · subst ht1
        simp only [votarVotos, hf]
        simp [enPositivos, List.any_append, huw]
      · by_cases ht2 : t = "negativo"
        · subst ht2
          simp only [votarVotos, hf]
          simp [enPositivos]
        · simp only [votarVotos, hf]
          rw [if_neg ht1, if_neg ht2]
          simp

/-- After `votar`, the membership of every user other than the acting one is
unchanged in `negativos`. -/
lemma enNegativos_votar_other (u w : Nat) (t : String) (now : Nat) (v : Votos)
    (hw : w ≠ u) :
    enNegativos w (votarVotos u t now v) = enNegativos w v := by
  have huw : (u == w) = false := by
    rw [beq_eq_false_iff_ne]
    exact fun hc => hw hc.symm
  cases hf : (enPositivos u v || enNegativos u v) with
  | true =>
      by_cases ht1 : t = "positivo"
      · subst ht1
        simp only [votarVotos, hf]
        simp [enNegativos, any_uid_filter_ne _ _ _ hw]
      · by_cases ht2 : t = "negativo"
        · subst ht2
          simp only [votarVotos, hf]
          simp [enNegativos, List.any_append, any_uid_filter_ne _ _ _ hw, huw]
        · simp only [votarVotos, hf]
          rw [if_neg ht1, if_neg ht2]
          simp [enNegativos, any_uid_filter_ne _ _ _ hw]
  | false =>
      by_cases ht1 : t = "positivo"
      · subst ht1
        simp only [votarVotos, hf]
        simp [enNegativos]
      · by_cases ht2 : t = "negativo"
        · subst ht2
          simp only [votarVotos, hf]
          simp [enNegativos, List.any_append, huw]
        · simp only [votarVotos, hf]
          rw [if_neg ht1, if_neg ht2]
          simp

/-- C3: voting positive then negative through `votar` leaves the user a
member of exactly one of the two vote sets — the negative one — whatever the
starting votes document; and after any sequence of `votar` operations
applied to the default (empty) votes document, the positive and negative
arrays are mutually exclusive for every user. -/
theorem C3_vote_sets_mutually_exclusive (u now1 now2 : Nat) (v : Votos)
    (ops : List VoteOp) (w : Nat) :
    (enNegativos u (votarVotos u "negativo" now2 (votarVotos u "positivo" now1 v)) = true ∧
     enPositivos u (votarVotos u "negativo" now2 (votarVotos u "positivo" now1 v)) = false) ∧
    (enPositivos w (applyVotes ops Votos.default) &&
      enNegativos w (applyVotes ops Votos.default)) = false := by
  constructor
  · exact ⟨by rw [enNegativos_votar_self]; rfl, by rw [enPositivos_votar_self]; rfl⟩
  · have key : ∀ (ops : List VoteOp) (v : Votos) (w : Nat),
        ¬(enPositivos w v = true ∧ enNegativos w v = true) →
        ¬(enPositivos w (applyVotes ops v) = true ∧
          enNegativos w (applyVotes ops v) = true) := by
      intro ops
      induction ops with
      | nil => exact fun v w h => h
      | cons op rest ih =>
          intro v w h
          have step : ¬(enPositivos w (votarVotos op.usuarioId op.tipo op.now v) = true ∧
              enNegativos w (votarVotos op.usuarioId op.tipo op.now v) = true) := by
            rintro ⟨h1, h2⟩
            by_cases hw : w = op.usuarioId
            · rw [hw, enPositivos_votar_self] at h1
              rw [hw, enNegativos_votar_self] at h2
              rw [beq_iff_eq] at h1 h2
              exact absurd (h1 ▸ h2) (by decide)
            · rw [enPositivos_votar_other _ _ _ _ _ hw] at h1
              rw [enNegativos_votar_other _ _ _ _ _ hw] at h2
              exact h ⟨h1, h2⟩
          simpa [applyVotes, List.foldl_cons] using ih _ w step
    have hkey := key ops Votos.default w
      (by simp [enPositivos, enNegativos, Votos.default])
    cases hp : enPositivos w (applyVotes ops Votos.default) with
    | false => simp
    | true =>
        cases hn : enNegativos w (applyVotes ops Votos.default) with
        | false => simp
        | true => exact absurd ⟨hp, hn⟩ hkey

/-! ### C4 — changeStatus, C6 — addComment -/

/-- A saved report passes exactly the four validator groups of the model. -/
lemma saveReport_ok_iff (r : Report) :
    saveReport r = .ok r ↔
      (validReportColumns r = true ∧ isValidMultimedia r.multimedia = true ∧
       isValidHistorial r.historial_estatus = true ∧
       isValidComentarios r.comentarios = true) := by
  unfold saveReport
  split_ifs with h1 h2 h3 h4 <;>
    simp_all [Bool.not_eq_false]

/-- C4: `cambiarEstatus` with a `nuevoEstatus` equal to the current status
resolves with the report unchanged and unsaved; with a different valid
status it persists the report with exactly one history entry appended,
recording the new status, the given comment and the acting user id — and a
second call with the same status is then a no-op, so two consecutive calls
append at most one entry. -/
theorem C4_changeStatus_appends_once (r : Report) (s c : String)
    (m : Option (List MediaItem)) (u now now2 : Nat)
    (hr : saveReport r = .ok r) (hs : validEstatus s = true)
    (hc : c ≠ "") (hu : u ≠ 0) :
    (r.estatus = s → cambiarEstatus s (some c) m u now r = .ok r) ∧
    (r.estatus ≠ s →
      cambiarEstatus s (some c) m u now r =
        .ok { r with
              estatus := s
              historial_estatus := r.historial_estatus ++
                [{ estatus := s, comentario := c, multimedia := some (m.getD []),
                   cambiado_por := u, fecha_cambio := now }] } ∧
      ∀ r2, cambiarEstatus s (some c) m u now r = .ok r2 →
        cambiarEstatus s (some c) m u now2 r2 = .ok r2) := by
  obtain ⟨hcols, hmul, hhist, hcom⟩ := (saveReport_ok_iff r).1 hr
  constructor
  · intro he
    simp [cambiarEstatus, he]
  · intro hne
    have hcols2 : validReportColumns
        { r with
          estatus := s
          historial_estatus := r.historial_estatus ++
            [{ estatus := s, comentario := c, multimedia := some (m.getD []),
               cambiado_por := u, fecha_cambio := now }] } = true := by
      simp only [validReportColumns, Bool.and_eq_true] at hcols ⊢
      tauto
    have hhist2 : isValidHistorial
        (r.historial_estatus ++
          [{ estatus := s, comentario := c, multimedia := some (m.getD []),
             cambiado_por := u, fecha_cambio := now }]) = true := by
      simp only [isValidHistorial, List.all_append, List.all_cons, List.all_nil,
        Bool.and_true, Bool.and_eq_true] at hhist ⊢
      refine ⟨hhist, ?_, ?_⟩
      · exact hs
      · simpa using hu
    have hsave : cambiarEstatus s (some c) m u now r =
        .ok { r with
              estatus := s
              historial_estatus := r.historial_estatus ++
                [{ estatus := s, comentario := c, multimedia := some (m.getD []),
                   cambiado_por := u, fecha_cambio := now }] } := by
      unfold cambiarEstatus
      rw [if_pos hne]
      rw [show jsOrString (some c) ("Estatus cambiado a " ++ s) = c from by
        simp [jsOrString, hc]]
      unfold saveReport
      rw [if_neg (by simp [hcols2]), if_neg (by simp [hmul]),
        if_neg (by simp [hhist2]), if_neg (by simp [hcom])]
    refine ⟨hsave, ?_⟩
    intro r2 hr2
    rw [hsave] at hr2
    injection hr2 with hr2
    rw [← hr2]
    simp [cambiarEstatus]

/-- C4 witness: the theorem at a concrete report — the same-status call is a
no-op and the changing call appends the single expected entry. -/
theorem C4_changeStatus_witness :
    cambiarEstatus "nuevo" (some "revisando") none 7 100 sampleReport = .ok sampleReport ∧
    cambiarEstatus "en_proceso" (some "revisando") none 7 100 sampleReport =
      .ok { sampleReport with
            estatus := "en_proceso"
            historial_estatus := sampleReport.historial_estatus ++
              [{ estatus := "en_proceso", comentario := "revisando",
                 multimedia := some [], cambiado_por := 7, fecha_cambio := 100 }] } := by
  constructor
  · exact (C4_changeStatus_appends_once sampleReport "nuevo" "revisando" none 7 100 200
      rfl (by decide) (by decide) (by decide)).1 rfl
  · exact ((C4_changeStatus_appends_once sampleReport "en_proceso" "revisando" none 7 100 200
      rfl (by decide) (by decide) (by decide)).2 (by decide)).1

/-- C6: `agregarComentario` with content of length 1 to 500 and a truthy
acting user persists the report with exactly one comment entry appended
whose author is the acting user and whose content is the given content
unchanged (no moderation filtering); content outside the 1 to 500 range is
rejected with the comment validation error. -/
theorem C6_addComment_appends_or_rejects (r : Report) (uid : Nat)
    (content : String) (m : Option (List MediaItem)) (now : Nat)
    (hr : saveReport r = .ok r) (hu : uid ≠ 0) :
    agregarComentario uid content m now r =
      if 1 ≤ content.length ∧ content.length ≤ 500 then
        .ok { r with comentarios := r.comentarios ++
          [{ usuario_id := uid, contenido := content, multimedia := m.getD [],
             created_at := now }] }
      else .error "Los comentarios deben ser un array" := by
  obtain ⟨hcols, hmul, hhist, hcom⟩ := (saveReport_ok_iff r).1 hr
  by_cases hP : 1 ≤ content.length ∧ content.length ≤ 500
  · rw [if_pos hP]
    have h4 : isValidComentarios
        (r.comentarios ++
          [{ usuario_id := uid, contenido := content, multimedia := m.getD [],
             created_at := now }]) = true := by
      simp only [isValidComentarios, List.all_append, List.all_cons, List.all_nil,
        Bool.and_true, Bool.and_eq_true] at hcom ⊢
      refine ⟨hcom, ?_, ?_⟩
      · simp [hu, hP.1]
      · simp [hP.2]
    unfold agregarComentario saveReport
    rw [if_neg (by simpa using hcols), if_neg (by simp [hmul]),
      if_neg (by simp [hhist]), if_neg (by simp [h4])]
  · rw [if_neg hP]
    have h4 : isValidComentarios
        (r.comentarios ++
          [{ usuario_id := uid, contenido := content, multimedia := m.getD [],
             created_at := now }]) = false := by
      simp only [isValidComentarios, List.all_append, List.all_cons, List.all_nil,
        Bool.and_true]
      simp only [isValidComentarios] at hcom
      rw [hcom, Bool.true_and]
      rcases not_and_or.1 hP with h1 | h1 <;> simp [h1]
    unfold agregarComentario saveReport
    rw [if_neg (by simpa using hcols), if_neg (by simp [hmul]),
      if_neg (by simp [hhist]), if_pos h4]

/-- C6 witness: the theorem at a concrete report — a 4-character comment is
appended verbatim with the acting user as author, and an empty comment is
rejected. -/
theorem C6_addComment_witness :
    agregarComentario 3 "hola" none 50 sampleReport =
      .ok { sampleReport with comentarios := sampleReport.comentarios ++
        [{ usuario_id := 3, contenido := "hola", multimedia := [], created_at := 50 }] } ∧
    agregarComentario 3 "" none 50 sampleReport =
      .error "Los comentarios deben ser un array" := by
  constructor
  · rw [C6_addComment_appends_or_rejects sampleReport 3 "hola" none 50 rfl (by decide)]
    rw [if_pos (by decide)]
    rfl
  · rw [C6_addComment_appends_or_rejects sampleReport 3 "" none 50 rfl (by decide)]
    rw [if_neg (by decide)]

/-! ### C5 — proximity search -/

/-- A public report on the meridian of the search center, 0.0095 degrees of
latitude away: inside the degree bounding box for radius 1 km, but about
1.056 km away. -/
def repA : Report :=
  { id := 2
    titulo := "Poste de luz caido"
    descripcion := "Un poste de luz caido en la esquina"
    direccion := "Calle Norte 45"
    latitud := 19/2000
    longitud := 0
    categoria_id := 1
    usuario_id := 9 }

/-- A public report 0.001 degrees of latitude from the center: about
0.111 km away, well inside radius 1 km. -/
def repB : Report :=
  { id := 3
    titulo := "Bache en la esquina"
    descripcion := "Un bache peligroso en la esquina"
    direccion := "Calle Sur 12"
    latitud := 1/1000
    longitud := 0
    categoria_id := 1
    usuario_id := 9 }

/-- For a report due north of the center `(0, 0)` the great-circle formula
collapses to the arc length along the meridian. -/
lemma distancia_meridian (r : Report) (hlng : r.longitud = 0)
    (h0 : 0 ≤ (r.latitud : ℝ)) (h180 : (r.latitud : ℝ) ≤ 180) :
    distancia 0 0 r = 6371 * ((r.latitud : ℝ) * Real.pi / 180) := by
  have hx0 : 0 ≤ (r.latitud : ℝ) * Real.pi / 180 := by
    apply div_nonneg _ (by norm_num)
    exact mul_nonneg h0 Real.pi_pos.le
  have hxpi : (r.latitud : ℝ) * Real.pi / 180 ≤ Real.pi := by
    rw [div_le_iff₀ (by norm_num : (0:ℝ) < 180)]
    calc (r.latitud : ℝ) * Real.pi ≤ 180 * Real.pi :=
          mul_le_mul_of_nonneg_right h180 Real.pi_pos.le
      _ = Real.pi * 180 := by ring
  have hinner : Real.cos (radians 0) * Real.cos (radians r.latitud) *
      Real.cos (radians r.longitud - radians 0) +
      Real.sin (radians 0) * Real.sin (radians r.latitud) =
      Real.cos ((r.latitud : ℝ) * Real.pi / 180) := by
    rw [hlng]
    simp [radians]
  unfold distancia
  rw [hinner, Real.arccos_cos hx0 hxpi]

/-- C5 counterexample: with center `(0, 0)` and radius 1 km, the geo query
returns both seeded reports even though the radius includes only `repB`:
`repA` sits inside the degree bounding box but its great-circle distance
exceeds 1 km, and no radius re-filter is applied.  So the result set is not
exactly the public reports within the radius, and a radius including only
the nearer report does not return exactly that report. -/
theorem C5_counterexample_box_exceeds_radius :
    repA ∈ geoFilter [repA, repB] 0 0 1 ∧
    repB ∈ geoFilter [repA, repB] 0 0 1 ∧
    1 < distancia 0 0 repA ∧
    distancia 0 0 repB ≤ 1 := by
  refine ⟨by norm_num [geoFilter, geoWhere, geoBox, repA, repB],
    by norm_num [geoFilter, geoWhere, geoBox, repA, repB], ?_, ?_⟩
  · have hd : distancia 0 0 repA = 6371 * (((19/2000 : ℚ) : ℝ) * Real.pi / 180) := by
      apply distancia_meridian repA rfl
      · norm_num [repA]
      · norm_num [repA]
    rw [hd]
    push_cast
    nlinarith [Real.pi_gt_three]
  · have hd : distancia 0 0 repB = 6371 * (((1/1000 : ℚ) : ℝ) * Real.pi / 180) := by
      apply distancia_meridian repB rfl
      · norm_num [repB]
      · norm_num [repB]
    rw [hd]
    push_cast
    nlinarith [Real.pi_lt_four, Real.pi_pos]

/-- C5 amended: the geo-filtered result set contains exactly the public
reports inside the degree bounding box (latitude and longitude each within
radius times 0.01 degrees of the center) — with no re-filtering by the true
great-circle distance; the results are ordered by the server-computed
great-circle distance ascending; and each result carries that distance as
its `distancia` attribute. -/
theorem C5_geo_query_characterization (db : List Report) (latQ lngQ radio : ℚ) :
    (∀ r : Report, (∃ d : ℝ, (r, d) ∈ listReportsGeo db latQ lngQ radio) ↔
        (r ∈ db ∧ r.is_publico = true ∧ geoBox latQ lngQ radio r = true)) ∧
    (listReportsGeo db latQ lngQ radio).Pairwise (fun p q => p.2 ≤ q.2) ∧
    (∀ p ∈ listReportsGeo db latQ lngQ radio, p.2 = distancia latQ lngQ p.1) := by
  refine ⟨?_, ?_, ?_⟩
  · intro r
    unfold listReportsGeo
    constructor
    · rintro ⟨d, hd⟩
      rw [List.mem_mergeSort, List.mem_map] at hd
      obtain ⟨r0, hr0, heq⟩ := hd
      have hr0r : r0 = r := congrArg Prod.fst heq
      subst hr0r
      unfold geoFilter at hr0
      rw [List.mem_filter] at hr0
      obtain ⟨hdb, hw⟩ := hr0
      simp only [geoWhere, Bool.and_eq_true] at hw
      exact ⟨hdb, hw.1, hw.2⟩
    · rintro ⟨hdb, hpub, hbox⟩
      refine ⟨distancia latQ lngQ r, ?_⟩
      rw [List.mem_mergeSort, List.mem_map]
      exact ⟨r, List.mem_filter.2 ⟨hdb, by simp [geoWhere, hpub, hbox]⟩, rfl⟩
  · have h := @List.sorted_mergeSort (Report × ℝ)
      (fun p q => decide (p.2 ≤ q.2))
      (by
        intro a b c hab hbc
        simp only [decide_eq_true_eq] at hab hbc ⊢
        exact le_trans hab hbc)
      (by
        intro a b
        simp only [Bool.or_eq_true, decide_eq_true_eq]
        exact le_total a.2 b.2)
      ((geoFilter db latQ lngQ radio).map (fun r => (r, distancia latQ lngQ r)))
    exact List.Pairwise.imp (fun hab => of_decide_eq_true hab) h
  · intro p hp
    unfold listReportsGeo at hp
    rw [List.mem_mergeSort, List.mem_map] at hp
    obtain ⟨r0, -, heq⟩ := hp
    rw [← heq]

/-- C5 witness for the characterization theorem: at the concrete seeded
state, the far-but-in-box report is in the result set and the result is
ordered by distance. -/
theorem C5_geo_query_witness :
    (∃ d : ℝ, (repA, d) ∈ listReportsGeo [repA, repB] 0 0 1) ∧
    (listReportsGeo [repA, repB] 0 0 1).Pairwise (fun p q => p.2 ≤ q.2) :=
  ⟨((C5_geo_query_characterization [repA, repB] 0 0 1).1 repA).2
      ⟨by simp, rfl, by norm_num [geoBox, repA]⟩,
    (C5_geo_query_characterization [repA, repB] 0 0 1).2.1⟩

/-! ### C10 — report listing is public-only and caller-independent -/

/-- C10: the report list endpoint returns the same result set for every
caller — anonymous or authenticated, administrators included — and every
returned report has its public flag set: the WHERE clause pins
`is_publico: true` and never consults `req.user`. -/
theorem C10_listing_public_and_caller_independent (db : List Report) (q : ListQuery) :
    (∀ u1 u2 : Option JsUser, listReportsHandler db q u1 = listReportsHandler db q u2) ∧
    (∀ (u : Option JsUser) (r : Report), r ∈ listReportsHandler db q u →
      r.is_publico = true) := by
  constructor
  · intro u1 u2
    rfl
  · intro u r hr
    have hmem : r ∈ db.filter (matchesWhere q) := by
      unfold listReportsHandler at hr
      cases hgeo : q.geo with
      | none =>
          simp only [hgeo] at hr
          exact List.mem_mergeSort.1 (List.mem_of_mem_drop (List.mem_of_mem_take hr))
      | some gq =>
          simp only [hgeo] at hr
          exact List.mem_mergeSort.1 (List.mem_of_mem_drop (List.mem_of_mem_take hr))
    have hw := (List.mem_filter.1 hmem).2
    simp only [matchesWhere, Bool.and_eq_true] at hw
    exact hw.1.1.1.1.1

/-- C10 witness: on a one-report store with the default query, an admin
caller and an anonymous caller receive the same result, and the sample
report it contains is public. -/
theorem C10_listing_witness :
    listReportsHandler [sampleReport] {} (some (JsUser.fromDb 4 "admin_general")) =
      listReportsHandler [sampleReport] {} none ∧
    sampleReport.is_publico = true := by
  constructor
  · exact (C10_listing_public_and_caller_independent [sampleReport] {}).1 _ _
  · apply (C10_listing_public_and_caller_independent [sampleReport] {}).2 none
    have hlist : listReportsHandler [sampleReport] {} none = [sampleReport] := by
      unfold listReportsHandler
      simp [matchesWhere, sampleReport]
    rw [hlist]
    simp

end Vecinity
